import Mathlib

/-!
Shallow embedding of `src/solvers/c3d_local_fix.py` (`Local3dFixSolver`).

The solver file orchestrates a training loop over external collaborators
(the model, loss kernels, optimizers, learning-rate schedules, data loaders).
Those collaborators live outside `src/` (in `utils`, `solvers.BaselineSolver`
and the torch framework), so they are modelled as opaque function parameters
collected in a `Collaborators` structure; every such modelling is marked in
its doc comment.  Everything that is authored in `c3d_local_fix.py` itself —
the order of schedule evaluation and the iteration increment, the loss
combination, the checkpoint save/load logic, the per-iteration save, the
test-interval gating, the termination test, and the `_test` collection loop
with `label.item()` — is transcribed directly from the source.

Scalars are modelled as `Rat` (exact arithmetic standing in for the floats of
the source), tensors and opaque state blobs as `Int` / `List Int`.
-/

/-- An opaque serialized state blob (`state_dict()` contents). -/
abbrev StateDict := List Int

/-- The model as seen by the solver: a parameter blob plus the train/eval
mode flag toggled by `model.train()` / `model.eval()`. -/
structure ModelState where
  params : StateDict
  training : Bool
deriving DecidableEq, Repr, Inhabited

/-- The mutable state of `Local3dFixSolver` that the claims are about:
`self.iter`, the model, the three optimizer states, and the best-score
tracking (`self.best_acc`, `self.best_iter`). -/
structure Solver where
  iter : Nat
  model : ModelState
  optimizer_backbone : StateDict
  optimizer_top : StateDict
  optimizer_local : StateDict
  best_acc : List Rat
  best_iter : Int
deriving DecidableEq, Repr, Inhabited

/-- The checkpoint dictionary built by `save_checkpoint` (source lines 68–74):
iteration number, model `state_dict`, and the three optimizer `state_dict`s. -/
structure Checkpoint where
  iteration : Nat
  model : StateDict
  optimizer_backbone : StateDict
  optimizer_top : StateDict
  optimizer_local : StateDict
deriving DecidableEq, Repr, Inhabited

/-- Source `Local3dFixSolver.save_checkpoint` (lines 67–77): builds the state
dictionary from the live solver and returns `self.iter`.  The `torch.save`
to disk is represented by returning the checkpoint value itself. -/
def save_checkpoint (s : Solver) : Checkpoint × Nat :=
  ({ iteration := s.iter
     model := s.model.params
     optimizer_backbone := s.optimizer_backbone
     optimizer_top := s.optimizer_top
     optimizer_local := s.optimizer_local }, s.iter)

/-- Source `Local3dFixSolver.load_checkpoint` (lines 79–90): always restores the
model weights, restores the three optimizer states only when `optim` is
true, never touches `self.iter`, and returns the iteration recorded in the
checkpoint. -/
def load_checkpoint (s : Solver) (state : Checkpoint) (optim : Bool) :
    Solver × Nat :=
  let s1 := { s with model := { s.model with params := state.model } }
  let s2 :=
    if optim then
      { s1 with
        optimizer_backbone := state.optimizer_backbone
        optimizer_top := state.optimizer_top
        optimizer_local := state.optimizer_local }
    else s1
  (s2, state.iteration)

/-- The configuration fields of `self.cfg` that the solver code reads. -/
structure Config where
  optimizer : String
  log_interval : Nat
  test_interval : Nat
  num_iter : Nat
  target_acc : String
  test_before_train : Bool
deriving DecidableEq, Repr, Inhabited

/-- One batch yielded by the training loader: `(seq, view, seq_type, label)`.
The tensors are opaque (`Int`); `label` is used whole by the loss kernel. -/
structure TrainBatch where
  seq : Int
  view : String
  seq_type : String
  label : Int
deriving DecidableEq, Repr, Inhabited

/-- One batch yielded by the test loader: `(seq, view, seq_type, label)`.
`view` and `seq_type` are per-sample string lists (the source concatenates
them with `+=`); `label` is a tensor, modelled as the list of its elements
because `_test` calls `label.item()` on it. -/
structure TestBatch where
  seq : Int
  view : List String
  seq_type : List String
  label : List Int
deriving DecidableEq, Repr, Inhabited

/-- The lists accumulated by the loop in `_test` (source lines 210–226). -/
structure TestRecords where
  full_feat_list : List Int
  local_feat_list : List Int
  view_list : List String
  seq_type_list : List String
  label_list : List Int
deriving DecidableEq, Repr, Inhabited

/-- The external collaborators of `Local3dFixSolver`, i.e. every callable the
solver file uses but does not define.  Modelled from the spec: `utils`
(`LearningRate`, `LossWeightDecay`), the loss kernel built by
`_build_one_loss`, the model forward pass, the torch optimizers built by
`_build_sgd` / `_build_adam`, `BaselineSolver._compute_accuracy` and the
best-score comparison of `BaselineSolver.collect` are not under `src/`.
The spec describes the schedules as pure functions of the iteration count
(`ScheduledValue`), the model as a callable producing a (global, local)
feature pair, the loss kernel as `(embedding, label) -> (scalar_loss,
auxiliary_count)`, and the optimizer step as an opaque update of one
parameter partition plus its own optimizer state using this iteration's
learning rate. -/
structure Collaborators where
  lr_scheduler_backbone : Nat → Rat
  lr_scheduler_top : Nat → Rat
  lr_scheduler_local : Nat → Rat
  early_loss_weight : Nat → Rat
  local_loss_weight : Nat → Rat
  forward : StateDict → Int → Int × Int
  criterion_early : Int → Int → Rat × Nat
  opt_backbone_step : StateDict → StateDict → Rat → Rat → StateDict × StateDict
  opt_top_step : StateDict → StateDict → Rat → Rat → StateDict × StateDict
  opt_local_step : StateDict → StateDict → Rat → Rat → StateDict × StateDict
  compute_accuracy : List Int → List String → List String → List Int → List Rat
  improves : List Rat → List Rat → Bool
  testData : List TestBatch

/-- Torch `tensor.item()`: succeeds exactly on a one-element tensor, as in torch. -/
def item (t : List Int) : Except String Int :=
  match t with
  | [x] => .ok x
  | _ => .error "only one element tensors can be converted to Python scalars"

/-- The collection loop of `_test` (source lines 216–226): for each test
batch, forward the sequence, append the two flattened feature blobs,
concatenate the view and sequence-type lists, and append `label.item()`. -/
def collectRecords (C : Collaborators) (params : StateDict) :
    List TestBatch → Except String TestRecords
  | [] => .ok ⟨[], [], [], [], []⟩
  | b :: rest =>
    let fl := C.forward params b.seq
    match item b.label with
    | .error e => .error e
    | .ok lab =>
      match collectRecords C params rest with
      | .error e => .error e
      | .ok r =>
        .ok ⟨fl.1 :: r.full_feat_list, fl.2 :: r.local_feat_list,
             b.view ++ r.view_list, b.seq_type ++ r.seq_type_list,
             lab :: r.label_list⟩

/-- Source `Local3dFixSolver._test` (lines 207–247): put the model in eval mode,
iterate the test loader once collecting records, compute the full and local
accuracy breakdowns, and return the one selected by `cfg.target_acc`
(`accs[target_acc]` raises a lookup error for any other key).  The
`writer.add_scalar` calls are external logging side effects. -/
def testPass (C : Collaborators) (cfg : Config) (s : Solver) :
    Except String (Solver × List Rat) :=
  let m := { s.model with training := false }
  match collectRecords C m.params C.testData with
  | .error e => .error e
  | .ok r =>
    let acc_full := C.compute_accuracy r.full_feat_list r.view_list
        r.seq_type_list r.label_list
    let acc_local := C.compute_accuracy r.local_feat_list r.view_list
        r.seq_type_list r.label_list
    match cfg.target_acc with
    | "full" => .ok ({ s with model := m }, acc_full)
    | "local" => .ok ({ s with model := m }, acc_local)
    | _ => .error "KeyError"

/-- Observable coordinator events of one loop iteration: the periodic log
emission, the checkpoint save (carrying the checkpoint written), the
evaluator invocation, and the final summary with the best score and best
iteration. -/
inductive Event where
  | log : Event
  | save : Checkpoint → Event
  | test : Event
  | summary : List Rat → Int → Event
deriving DecidableEq, Repr

/-- Whether an event is a checkpoint save. -/
def Event.isSave : Event → Bool
  | .save _ => true
  | _ => false

/-- Whether an event is an evaluator invocation. -/
def Event.isTest : Event → Bool
  | .test => true
  | _ => false

/-- Modelled from the spec: `BaselineSolver.collect` is not under `src/`.
The spec says the coordinator compares a new evaluation result against the
best-score state and updates best-score/best-iteration if improved; the
comparison itself is the opaque `improves` collaborator. -/
def collect (C : Collaborators) (s : Solver) (acc : List Rat) : Solver :=
  if C.improves s.best_acc acc then
    { s with best_acc := acc, best_iter := (s.iter : Int) }
  else s

/-- The deterministic front half of one loop iteration (source lines
132–166): `model.train()`, evaluate the three learning-rate schedules and
the two loss-weight schedules at the pre-increment `self.iter`, increment
`self.iter`, forward the batch, compute the two loss terms with the same
kernel and label, combine them with this iteration's weights, and step the
three optimizers in declaration order.  Gradient buffers (`zero_grad` /
`backward`) live inside the opaque optimizer-step collaborators.  The meter
updates are external bookkeeping with no effect on solver state. -/
structure StepCore where
  lr_backbone : Rat
  lr_top : Rat
  lr_local : Rat
  lw_early : Rat
  lw_local : Rat
  early_loss : Rat
  local_loss : Rat
  loss : Rat
  solver : Solver
deriving DecidableEq, Repr, Inhabited

/-- Computes the front half of one training iteration; see `StepCore`. -/
def stepCore (C : Collaborators) (s0 : Solver) (b : TrainBatch) : StepCore :=
  let s1 := { s0 with model := { s0.model with training := true } }
  let lr_backbone := C.lr_scheduler_backbone s1.iter
  let lr_top := C.lr_scheduler_top s1.iter
  let lr_local := C.lr_scheduler_local s1.iter
  let lw_early := C.early_loss_weight s1.iter
  let lw_local := C.local_loss_weight s1.iter
  let s2 := { s1 with iter := s1.iter + 1 }
  let fg := C.forward s2.model.params b.seq
  let el := C.criterion_early fg.1 b.label
  let ll := C.criterion_early fg.2 b.label
  let loss := lw_early * el.1 + lw_local * ll.1
  let ob := C.opt_backbone_step s2.model.params s2.optimizer_backbone lr_backbone loss
  let ot := C.opt_top_step ob.1 s2.optimizer_top lr_top loss
  let ol := C.opt_local_step ot.1 s2.optimizer_local lr_local loss
  { lr_backbone := lr_backbone, lr_top := lr_top, lr_local := lr_local
    lw_early := lw_early, lw_local := lw_local
    early_loss := el.1, local_loss := ll.1, loss := loss
    solver := { s2 with
      model := { s2.model with params := ol.1 }
      optimizer_backbone := ob.2
      optimizer_top := ot.2
      optimizer_local := ol.2 } }

/-- The test-interval gate of the loop (source lines 193–195): every
`test_interval` iterations (post-increment counter) run `_test` and hand the
returned accuracy to `collect`. -/
def testPhase (C : Collaborators) (cfg : Config) (s : Solver) :
    Except String (Solver × List Event) :=
  if s.iter % cfg.test_interval = 0 then
    match testPass C cfg s with
    | .error e => .error e
    | .ok (s4, acc) => .ok (collect C s4 acc, [Event.test])
  else .ok (s, [])

/-- The result of one full loop iteration, with the scheduled values and
loss terms it used exposed for the statements below. -/
structure StepResult where
  solver : Solver
  events : List Event
  lr_backbone : Rat
  lr_top : Rat
  lr_local : Rat
  lw_early : Rat
  lw_local : Rat
  early_loss : Rat
  local_loss : Rat
  loss : Rat
  done : Bool
deriving DecidableEq, Repr, Inhabited

/-- One full iteration of the training loop body (source lines 131–204):
the front half (`stepCore`), then in source order the `log_interval`-gated
log emission, the unconditional `self.save()` checkpoint save, the
`test_interval`-gated evaluation, and the termination test against
`cfg.num_iter` which emits the final summary.  A raised exception anywhere
(only `_test` can raise in this model) aborts the iteration. -/
def trainStep (C : Collaborators) (cfg : Config) (s0 : Solver)
    (b : TrainBatch) : Except String StepResult :=
  let c := stepCore C s0 b
  let logEvents := if c.solver.iter % cfg.log_interval = 0 then [Event.log] else []
  let saveEvents := [Event.save (save_checkpoint c.solver).1]
  match testPhase C cfg c.solver with
  | .error e => .error e
  | .ok (s5, testEvents) =>
    if s5.iter = cfg.num_iter then
      .ok { solver := s5
            events := logEvents ++ saveEvents ++ testEvents ++
              [Event.summary s5.best_acc s5.best_iter]
            lr_backbone := c.lr_backbone, lr_top := c.lr_top
            lr_local := c.lr_local, lw_early := c.lw_early
            lw_local := c.lw_local, early_loss := c.early_loss
            local_loss := c.local_loss, loss := c.loss, done := true }
    else
      .ok { solver := s5
            events := logEvents ++ saveEvents ++ testEvents
            lr_backbone := c.lr_backbone, lr_top := c.lr_top
            lr_local := c.lr_local, lw_early := c.lw_early
            lw_local := c.lw_local, early_loss := c.early_loss
            local_loss := c.local_loss, loss := c.loss, done := false }

/-- The events of one completed iteration, tagged with the post-increment
iteration number it ran as. -/
structure IterLog where
  iterNo : Nat
  events : List Event
deriving DecidableEq, Repr, Inhabited

/-- The `for seq, view, seq_type, label in self.trainloader` loop (source
lines 131–204) over an inexhaustible stream, fuel-bounded: `.ok none` means
the fuel ran out before the `self.iter == cfg.num_iter` return fired. -/
def trainLoop (C : Collaborators) (cfg : Config) (stream : Nat → TrainBatch) :
    Nat → Nat → Solver → Except String (Option (Solver × List IterLog))
  | 0, _, _ => .ok none
  | fuel + 1, k, s =>
    match trainStep C cfg s (stream k) with
    | .error e => .error e
    | .ok r =>
      if r.done then .ok (some (r.solver, [⟨r.solver.iter, r.events⟩]))
      else
        match trainLoop C cfg stream fuel (k + 1) r.solver with
        | .error e => .error e
        | .ok none => .ok none
        | .ok (some (s', recs)) =>
          .ok (some (s', ⟨r.solver.iter, r.events⟩ :: recs))

/-- Source `build_optimizer` (lines 31–59): dispatch on `cfg.optimizer`; any
kind other than `'SGD'` or `'Adam'` raises `ValueError`.  The optimizer
objects themselves are opaque collaborators, so only the dispatch outcome is
kept. -/
def build_optimizer (cfg : Config) : Except String Unit :=
  if cfg.optimizer = "SGD" then .ok ()
  else if cfg.optimizer = "Adam" then .ok ()
  else .error "ValueError"

/-- Source `Local3dFixSolver.train` (lines 99–204): build phase (of which only
`build_optimizer` can fail in this model; `build_data`, `build_model`,
`build_loss` construct opaque collaborators), `self.iter = 0`, the optional
test-before-train pass, the best-score initialisation `[0], -1`, then the
loop.  `self.load()` (resuming from a previous checkpoint) belongs to
`BaselineSolver`, outside `src/`; a fresh run is modelled. -/
def train (C : Collaborators) (cfg : Config) (stream : Nat → TrainBatch)
    (model0 : ModelState) (ob0 ot0 ol0 : StateDict) (fuel : Nat) :
    Except String (Option (Solver × List IterLog)) :=
  match build_optimizer cfg with
  | .error e => .error e
  | .ok _ =>
    let s0 : Solver :=
      { iter := 0, model := model0
        optimizer_backbone := ob0, optimizer_top := ot0
        optimizer_local := ol0, best_acc := [0], best_iter := -1 }
    match (if cfg.test_before_train then
             match testPass C cfg s0 with
             | .error e => .error e
             | .ok (s1, _) => .ok s1
           else .ok s0 : Except String Solver) with
    | .error e => .error e
    | .ok s1 =>
      let s2 := { s1 with best_acc := [0], best_iter := -1 }
      trainLoop C cfg stream fuel 0 s2

/-! ## Concrete instances used to exercise the definitions -/

/-- A concrete collaborator assignment with simple executable behaviour. -/
def Cex : Collaborators where
  lr_scheduler_backbone := fun n => (n : Rat) / 10
  lr_scheduler_top := fun n => (n : Rat) / 100
  lr_scheduler_local := fun n => (n : Rat) / 1000
  early_loss_weight := fun _ => 1
  local_loss_weight := fun _ => 0
  forward := fun p x => (x + p.headD 0, 2 * x)
  criterion_early := fun f l => (((f + l : Int) : Rat), 1)
  opt_backbone_step := fun p o lr _ => (p, lr.num :: o)
  opt_top_step := fun p o lr _ => (p, lr.num :: o)
  opt_local_step := fun p o lr _ => (p, lr.num :: o)
  compute_accuracy := fun f _ _ l => [(f.length : Rat) + (l.length : Rat)]
  improves := fun old new => decide (old.headD 0 < new.headD 0)
  testData := [⟨3, ["v0"], ["nm"], [7]⟩]

/-- A concrete configuration. -/
def cfgEx : Config :=
  { optimizer := "SGD", log_interval := 1, test_interval := 5
    num_iter := 10, target_acc := "full", test_before_train := false }

/-- A concrete solver state. -/
def sEx : Solver :=
  { iter := 0, model := { params := [5], training := false }
    optimizer_backbone := [1], optimizer_top := [2], optimizer_local := [3]
    best_acc := [0], best_iter := -1 }

/-- A concrete training batch. -/
def bEx : TrainBatch := { seq := 4, view := "v", seq_type := "nm", label := 2 }

/-- A concrete training stream. -/
def streamEx : Nat → TrainBatch := fun k => { seq := (k : Int), view := "v", seq_type := "nm", label := 1 }

/-- The concrete step result at `Cex`, `cfgEx`, `sEx`, `bEx`. -/
def rEx : StepResult := (trainStep Cex cfgEx sEx bEx).toOption.getD default

/-- The concrete evaluation-pass result at `Cex`, `cfgEx`, `sEx`. -/
def tpEx : Solver × List Rat := (testPass Cex cfgEx sEx).toOption.getD default

/-- A collaborator assignment whose test loader yields a two-sample batch. -/
def CexBad : Collaborators :=
  { Cex with testData := [⟨3, ["v0", "v1"], ["nm", "nm"], [7, 8]⟩] }

/-! ## Helper lemmas -/

/-- The `collect` update never touches the iteration counter. -/
theorem collect_iter (C : Collaborators) (s : Solver) (a : List Rat) :
    (collect C s a).iter = s.iter := by
  unfold collect; split <;> rfl

/-- When `testPass` succeeds, the returned solver is the input with the model
switched to eval mode and nothing else changed. -/
theorem testPass_ok_shape {C : Collaborators} {cfg : Config} {s s' : Solver}
    {a : List Rat} (h : testPass C cfg s = .ok (s', a)) :
    s' = { s with model := { s.model with training := false } } := by
  simp only [testPass] at h
  split at h
  · simp at h
  · split at h <;>
      first
        | (simp only [Except.ok.injEq, Prod.mk.injEq] at h
           exact h.1.symm)
        | simp at h

/-- When `testPhase` succeeds it preserves the iteration counter and emits
`[Event.test]` exactly when the post-increment counter hits the interval. -/
theorem testPhase_ok_inv {C : Collaborators} {cfg : Config} {s s5 : Solver}
    {evs : List Event} (h : testPhase C cfg s = .ok (s5, evs)) :
    s5.iter = s.iter ∧
    evs = (if s.iter % cfg.test_interval = 0 then [Event.test] else []) := by
  simp only [testPhase] at h
  split at h
  next hmod =>
    split at h
    · simp at h
    next p heq =>
      simp only [Except.ok.injEq, Prod.mk.injEq] at h
      obtain ⟨h1, h2⟩ := h
      have hs4 := testPass_ok_shape heq
      refine ⟨?_, by rw [if_pos hmod]; exact h2.symm⟩
      rw [← h1, collect_iter, hs4]
  next hmod =>
    simp only [Except.ok.injEq, Prod.mk.injEq] at h
    exact ⟨h.1.symm ▸ rfl, by rw [if_neg hmod]; exact h.2.symm⟩

/-- When `collectRecords` succeeds, one record was collected per batch of the
test stream. -/
theorem collectRecords_ok_lengths {C : Collaborators} {params : StateDict} :
    ∀ {data : List TestBatch} {r : TestRecords},
      collectRecords C params data = .ok r →
      r.full_feat_list.length = data.length ∧
      r.local_feat_list.length = data.length ∧
      r.label_list.length = data.length
  | [], r, h => by
      simp only [collectRecords, Except.ok.injEq] at h
      subst h; exact ⟨rfl, rfl, rfl⟩
  | b :: rest, r, h => by
      simp only [collectRecords] at h
      split at h
      · simp at h
      · split at h
        · simp at h
        next r0 hr0 =>
          have ih := collectRecords_ok_lengths hr0
          simp only [Except.ok.injEq] at h
          subst h
          simp [ih.1, ih.2.1, ih.2.2]

/-- When every test batch carries a one-element label tensor,
`collectRecords` succeeds. -/
theorem collectRecords_ok_of {C : Collaborators} {params : StateDict} :
    ∀ {data : List TestBatch}, (∀ b ∈ data, b.label.length = 1) →
      ∃ r, collectRecords C params data = .ok r
  | [], _ => ⟨⟨[], [], [], [], []⟩, rfl⟩
  | b :: rest, h => by
      have hb : b.label.length = 1 := h b (by simp)
      obtain ⟨x, hx⟩ : ∃ x, b.label = [x] := by
        cases hl : b.label with
        | nil => rw [hl] at hb; simp at hb
        | cons y t =>
          cases t with
          | nil => exact ⟨y, rfl⟩
          | cons z t2 => rw [hl] at hb; simp at hb
      obtain ⟨r0, hr0⟩ :=
        @collectRecords_ok_of C params rest
          (fun b' hb' => h b' (List.mem_cons_of_mem _ hb'))
      refine ⟨⟨(C.forward params b.seq).1 :: r0.full_feat_list,
               (C.forward params b.seq).2 :: r0.local_feat_list,
               b.view ++ r0.view_list, b.seq_type ++ r0.seq_type_list,
               x :: r0.label_list⟩, ?_⟩
      simp only [collectRecords, hx, item, hr0]

/-- Any test batch whose label tensor is not a singleton makes
`collectRecords` fail with the `item()` error. -/
theorem collectRecords_err {C : Collaborators} {params : StateDict} :
    ∀ {data : List TestBatch}, (∃ b ∈ data, b.label.length ≠ 1) →
      collectRecords C params data =
        .error "only one element tensors can be converted to Python scalars"
  | [], h => absurd h (by simp)
  | b :: rest, h => by
      by_cases hb : b.label.length = 1
      · obtain ⟨x, hx⟩ : ∃ x, b.label = [x] := by
          cases hl : b.label with
          | nil => rw [hl] at hb; simp at hb
          | cons y t =>
            cases t with
            | nil => exact ⟨y, rfl⟩
            | cons z t2 => rw [hl] at hb; simp at hb
        have hrest : ∃ b' ∈ rest, b'.label.length ≠ 1 := by
          rcases h with ⟨b', hb', hlen⟩
          rcases List.mem_cons.mp hb' with rfl | hmem
          · exact absurd hb hlen
          · exact ⟨b', hmem, hlen⟩
        have ih := @collectRecords_err C params rest hrest
        simp only [collectRecords, hx, item, ih]
      · have hitem : item b.label =
            .error "only one element tensors can be converted to Python scalars" := by
          cases hl : b.label with
          | nil => rfl
          | cons y t =>
            cases t with
            | nil => exact absurd (by rw [hl]; rfl) hb
            | cons z t2 => rfl
        simp only [collectRecords, hitem]

/-- When every test batch is a singleton and the target accuracy key is
valid, `testPass` succeeds and returns the eval-mode solver. -/
theorem testPass_ok_of {C : Collaborators} {cfg : Config} (s : Solver)
    (htd : ∀ b ∈ C.testData, b.label.length = 1)
    (htarget : cfg.target_acc = "full" ∨ cfg.target_acc = "local") :
    ∃ a, testPass C cfg s =
      .ok ({ s with model := { s.model with training := false } }, a) := by
  obtain ⟨r, hr⟩ := @collectRecords_ok_of C
    { s.model with training := false }.params C.testData htd
  rcases htarget with h | h <;> exact ⟨_, by simp only [testPass, hr, h]; rfl⟩

/-- When every test batch is a singleton and the target accuracy key is
valid, `testPhase` succeeds. -/
theorem testPhase_ok_of {C : Collaborators} {cfg : Config} (s : Solver)
    (htd : ∀ b ∈ C.testData, b.label.length = 1)
    (htarget : cfg.target_acc = "full" ∨ cfg.target_acc = "local") :
    ∃ s5 evs, testPhase C cfg s = .ok (s5, evs) := by
  by_cases hm : s.iter % cfg.test_interval = 0
  · obtain ⟨a, ha⟩ := testPass_ok_of s htd htarget
    exact ⟨_, _, by simp only [testPhase, hm, if_pos, ha]; rfl⟩
  · exact ⟨_, _, by simp only [testPhase, hm, if_neg, ite_false]; rfl⟩

/-- Full characterization of a successful training-loop iteration: every
scheduled value was read at the pre-increment counter, the counter advanced
by exactly one, exactly one checkpoint save happened, the evaluator ran
exactly when the post-increment counter hit `test_interval`, and the step
reports `done` (with a summary event) exactly when the post-increment
counter reached `num_iter`. -/
theorem trainStep_ok_inv {C : Collaborators} {cfg : Config} {s : Solver}
    {b : TrainBatch} {r : StepResult} (h : trainStep C cfg s b = .ok r) :
    r.lr_backbone = C.lr_scheduler_backbone s.iter ∧
    r.lr_top = C.lr_scheduler_top s.iter ∧
    r.lr_local = C.lr_scheduler_local s.iter ∧
    r.lw_early = C.early_loss_weight s.iter ∧
    r.lw_local = C.local_loss_weight s.iter ∧
    r.early_loss = (C.criterion_early (C.forward s.model.params b.seq).1 b.label).1 ∧
    r.local_loss = (C.criterion_early (C.forward s.model.params b.seq).2 b.label).1 ∧
    r.loss = r.lw_early * r.early_loss + r.lw_local * r.local_loss ∧
    r.solver.iter = s.iter + 1 ∧
    (r.events.filter Event.isSave).length = 1 ∧
    (r.events.filter Event.isTest).length =
      (if (s.iter + 1) % cfg.test_interval = 0 then 1 else 0) ∧
    (r.done = true ↔ s.iter + 1 = cfg.num_iter) ∧
    (r.done = true → Event.summary r.solver.best_acc r.solver.best_iter ∈ r.events) := by
  have hsc : (stepCore C s b).solver.iter = s.iter + 1 := rfl
  simp only [trainStep] at h
  split at h
  · simp at h
  next s5 evs heq =>
    obtain ⟨hi5, hevs⟩ := testPhase_ok_inv heq
    rw [hsc] at hi5 hevs
    subst hevs
    split at h
    next hdone =>
      simp only [Except.ok.injEq] at h
      subst h
      refine ⟨rfl, rfl, rfl, rfl, rfl, rfl, rfl, rfl, hi5, ?_, ?_, ?_, ?_⟩
      · by_cases hl : (stepCore C s b).solver.iter % cfg.log_interval = 0 <;>
          by_cases hm : (s.iter + 1) % cfg.test_interval = 0 <;>
          simp [hl, hm, Event.isSave]
      · by_cases hl : (stepCore C s b).solver.iter % cfg.log_interval = 0 <;>
          by_cases hm : (s.iter + 1) % cfg.test_interval = 0 <;>
          simp [hl, hm, Event.isTest]
      · exact ⟨fun _ => hi5.symm.trans hdone, fun _ => rfl⟩
      · intro _
        simp [List.mem_append]
    next hdone =>
      simp only [Except.ok.injEq] at h
      subst h
      refine ⟨rfl, rfl, rfl, rfl, rfl, rfl, rfl, rfl, hi5, ?_, ?_, ?_, ?_⟩
      · by_cases hl : (stepCore C s b).solver.iter % cfg.log_interval = 0 <;>
          by_cases hm : (s.iter + 1) % cfg.test_interval = 0 <;>
          simp [hl, hm, Event.isSave]
      · by_cases hl : (stepCore C s b).solver.iter % cfg.log_interval = 0 <;>
          by_cases hm : (s.iter + 1) % cfg.test_interval = 0 <;>
          simp [hl, hm, Event.isTest]
      · constructor
        · intro hc; simp at hc
        · intro hc; exact (hdone (hi5.trans hc)).elim
      · intro hc; simp at hc

/-- When every test batch is a singleton and the target key is valid, one
training-loop iteration always succeeds. -/
theorem trainStep_ok_of {C : Collaborators} {cfg : Config} (s : Solver)
    (b : TrainBatch) (htd : ∀ b ∈ C.testData, b.label.length = 1)
    (htarget : cfg.target_acc = "full" ∨ cfg.target_acc = "local") :
    ∃ r, trainStep C cfg s b = .ok r := by
  obtain ⟨s5, evs, h5⟩ := testPhase_ok_of (stepCore C s b).solver htd htarget
  by_cases hd : s5.iter = cfg.num_iter
  · exact ⟨_, by simp only [trainStep, h5, hd, if_pos]; rfl⟩
  · exact ⟨_, by simp only [trainStep, h5, hd, if_neg, ite_false]; rfl⟩

/-- Master run lemma: from any in-budget state, given singleton test batches
and a valid target key, the loop runs to the budget; the completed
iterations are numbered consecutively up to `num_iter`, each saved exactly
one checkpoint, each ran the evaluator exactly when its number is a
multiple of `test_interval`, and the final iteration emitted the summary. -/
theorem trainLoop_run {C : Collaborators} {cfg : Config}
    {stream : Nat → TrainBatch}
    (htd : ∀ b ∈ C.testData, b.label.length = 1)
    (htarget : cfg.target_acc = "full" ∨ cfg.target_acc = "local") :
    ∀ fuel k (s : Solver), s.iter < cfg.num_iter →
      cfg.num_iter - s.iter ≤ fuel →
    ∃ s' recs, trainLoop C cfg stream fuel k s = .ok (some (s', recs)) ∧
      s'.iter = cfg.num_iter ∧
      recs.map IterLog.iterNo = List.range' (s.iter + 1) (cfg.num_iter - s.iter) ∧
      (∀ rec ∈ recs, (rec.events.filter Event.isSave).length = 1) ∧
      (∀ rec ∈ recs, (rec.events.filter Event.isTest).length =
        (if rec.iterNo % cfg.test_interval = 0 then 1 else 0)) ∧
      (∃ rec ∈ recs, rec.iterNo = cfg.num_iter ∧
        Event.summary s'.best_acc s'.best_iter ∈ rec.events) := by
  intro fuel
  induction fuel with
  | zero => intro k s hlt hfuel; exact absurd hfuel (by omega)
  | succ fuel ih =>
    intro k s hlt hfuel
    obtain ⟨r, hr⟩ := trainStep_ok_of s (stream k) htd htarget
    obtain ⟨_, _, _, _, _, _, _, _, hiter, hsave, htest, hdone_iff, hsum⟩ :=
      trainStep_ok_inv hr
    by_cases hend : s.iter + 1 = cfg.num_iter
    · have hdone : r.done = true := hdone_iff.mpr hend
      refine ⟨r.solver, [⟨r.solver.iter, r.events⟩], ?_, ?_, ?_, ?_, ?_, ?_⟩
      · simp only [trainLoop, hr, hdone, if_pos]
      · rw [hiter]; exact hend
      · have h1 : cfg.num_iter - s.iter = 1 := by omega
        rw [h1]
        simp [hiter, List.range']
      · intro rec hrec
        simp only [List.mem_singleton] at hrec
        subst hrec
        exact hsave
      · intro rec hrec
        simp only [List.mem_singleton] at hrec
        subst hrec
        simpa [hiter] using htest
      · exact ⟨⟨r.solver.iter, r.events⟩, List.mem_singleton_self _,
          hiter.trans hend, hsum hdone⟩
    · have hlt' : r.solver.iter < cfg.num_iter := by rw [hiter]; omega
      have hdone : r.done = false := by
        cases hdn : r.done
        · rfl
        · exact absurd (hdone_iff.mp hdn) hend
      obtain ⟨s', recs, hloop, hs', hmap, hsaves, htests, hsummary⟩ :=
        ih (k + 1) r.solver hlt' (by rw [hiter]; omega)
      refine ⟨s', ⟨r.solver.iter, r.events⟩ :: recs, ?_, hs', ?_, ?_, ?_, ?_⟩
      · simp only [trainLoop, hr, hdone, hloop, Bool.false_eq_true, if_false]
      · have h1 : cfg.num_iter - s.iter = (cfg.num_iter - (s.iter + 1)) + 1 := by
          omega
        rw [h1, List.range'_succ]
        simp only [List.map_cons, hmap, hiter]
      · intro rec hrec
        rcases List.mem_cons.mp hrec with rfl | hmem
        · exact hsave
        · exact hsaves rec hmem
      · intro rec hrec
        rcases List.mem_cons.mp hrec with rfl | hmem
        · simpa [hiter] using htest
        · exact htests rec hmem
      · obtain ⟨rec, hm, h1, h2⟩ := hsummary
        exact ⟨rec, List.mem_cons_of_mem _ hm, h1, h2⟩

/-- A complete `train` run under a valid configuration: the loop performs
iterations `1 .. num_iter` and the per-iteration logs have the claimed
shape. -/
theorem train_run {C : Collaborators} {cfg : Config} {stream : Nat → TrainBatch}
    (model0 : ModelState) (ob0 ot0 ol0 : StateDict) (fuel : Nat)
    (htd : ∀ b ∈ C.testData, b.label.length = 1)
    (htarget : cfg.target_acc = "full" ∨ cfg.target_acc = "local")
    (hopt : cfg.optimizer = "SGD" ∨ cfg.optimizer = "Adam")
    (hnum : 0 < cfg.num_iter) (hfuel : cfg.num_iter ≤ fuel) :
    ∃ s' recs,
      train C cfg stream model0 ob0 ot0 ol0 fuel = .ok (some (s', recs)) ∧
      s'.iter = cfg.num_iter ∧
      recs.map IterLog.iterNo = List.range' 1 cfg.num_iter ∧
      (∀ rec ∈ recs, (rec.events.filter Event.isSave).length = 1) ∧
      (∀ rec ∈ recs, (rec.events.filter Event.isTest).length =
        (if rec.iterNo % cfg.test_interval = 0 then 1 else 0)) ∧
      (∃ rec ∈ recs, rec.iterNo = cfg.num_iter ∧
        Event.summary s'.best_acc s'.best_iter ∈ rec.events) := by
  have hbo : build_optimizer cfg = .ok () := by
    rcases hopt with h | h <;> simp [build_optimizer, h]
  by_cases hpre : cfg.test_before_train = true
  · obtain ⟨a, ha⟩ := @testPass_ok_of C cfg
      { iter := 0, model := model0, optimizer_backbone := ob0
        optimizer_top := ot0, optimizer_local := ol0
        best_acc := [0], best_iter := -1 } htd htarget
    have htrain : train C cfg stream model0 ob0 ot0 ol0 fuel =
        trainLoop C cfg stream fuel 0
          { iter := 0, model := { model0 with training := false }
            optimizer_backbone := ob0, optimizer_top := ot0
            optimizer_local := ol0, best_acc := [0], best_iter := -1 } := by
      simp only [train, hbo, hpre, if_pos, ha]
    obtain ⟨s', recs, hloop, hrest⟩ :=
      @trainLoop_run C cfg stream htd htarget fuel 0
        { iter := 0, model := { model0 with training := false }
          optimizer_backbone := ob0, optimizer_top := ot0
          optimizer_local := ol0, best_acc := [0], best_iter := -1 }
        hnum hfuel
    rw [htrain]
    exact ⟨s', recs, hloop, hrest⟩
  · have htrain : train C cfg stream model0 ob0 ot0 ol0 fuel =
        trainLoop C cfg stream fuel 0
          { iter := 0, model := model0, optimizer_backbone := ob0
            optimizer_top := ot0, optimizer_local := ol0
            best_acc := [0], best_iter := -1 } := by
      simp only [train, hbo, hpre, if_neg, ite_false]
      rfl
    obtain ⟨s', recs, hloop, hrest⟩ :=
      @trainLoop_run C cfg stream htd htarget fuel 0
        { iter := 0, model := model0, optimizer_backbone := ob0
          optimizer_top := ot0, optimizer_local := ol0
          best_acc := [0], best_iter := -1 }
        hnum hfuel
    rw [htrain]
    exact ⟨s', recs, hloop, hrest⟩

/-! ## Claim theorems -/

/-- C1: For every training iteration, the three learning rates (backbone,
top, local) and the two loss weights (early, local) are computed from the
iteration counter's value before it is incremented for that step, and the
counter is incremented exactly once per iteration. -/
theorem trainStep_schedules_pre_increment {C : Collaborators} {cfg : Config}
    {s : Solver} {b : TrainBatch} {r : StepResult}
    (h : trainStep C cfg s b = .ok r) :
    r.lr_backbone = C.lr_scheduler_backbone s.iter ∧
    r.lr_top = C.lr_scheduler_top s.iter ∧
    r.lr_local = C.lr_scheduler_local s.iter ∧
    r.lw_early = C.early_loss_weight s.iter ∧
    r.lw_local = C.local_loss_weight s.iter ∧
    r.solver.iter = s.iter + 1 := by
  obtain ⟨h1, h2, h3, h4, h5, _, _, _, h9, _⟩ := trainStep_ok_inv h
  exact ⟨h1, h2, h3, h4, h5, h9⟩

/-- Witness for C1: the concrete step at `Cex`, `cfgEx`, `sEx`, `bEx`
succeeds and the theorem applies to it. -/
theorem trainStep_schedules_pre_increment_witness :
    trainStep Cex cfgEx sEx bEx = .ok rEx ∧
    (rEx.lr_backbone = Cex.lr_scheduler_backbone sEx.iter ∧
     rEx.lr_top = Cex.lr_scheduler_top sEx.iter ∧
     rEx.lr_local = Cex.lr_scheduler_local sEx.iter ∧
     rEx.lw_early = Cex.early_loss_weight sEx.iter ∧
     rEx.lw_local = Cex.local_loss_weight sEx.iter ∧
     rEx.solver.iter = sEx.iter + 1) :=
  ⟨by rfl, @trainStep_schedules_pre_increment Cex cfgEx sEx bEx rEx (by rfl)⟩

/-- C2: In every iteration of the training loop, a checkpoint save is
invoked exactly once, unconditionally — regardless of `log_interval`,
`test_interval`, or any other configuration. -/
theorem trainStep_saves_every_iteration {C : Collaborators} {cfg : Config}
    {s : Solver} {b : TrainBatch} {r : StepResult}
    (h : trainStep C cfg s b = .ok r) :
    (r.events.filter Event.isSave).length = 1 := by
  obtain ⟨_, _, _, _, _, _, _, _, _, h10, _⟩ := trainStep_ok_inv h
  exact h10

/-- Witness for C2 at the concrete step. -/
theorem trainStep_saves_every_iteration_witness :
    trainStep Cex cfgEx sEx bEx = .ok rEx ∧
    (rEx.events.filter Event.isSave).length = 1 :=
  ⟨by rfl, @trainStep_saves_every_iteration Cex cfgEx sEx bEx rEx (by rfl)⟩

/-- C3: Loading a checkpoint produced by `save_checkpoint` with optimizer
restoration enabled restores the model state and all three optimizer states
identically to what was saved, and returns the iteration that was saved. -/
theorem checkpoint_roundtrip_restores_state (s t : Solver) :
    (load_checkpoint t (save_checkpoint s).1 true).1.model.params = s.model.params ∧
    (load_checkpoint t (save_checkpoint s).1 true).1.optimizer_backbone = s.optimizer_backbone ∧
    (load_checkpoint t (save_checkpoint s).1 true).1.optimizer_top = s.optimizer_top ∧
    (load_checkpoint t (save_checkpoint s).1 true).1.optimizer_local = s.optimizer_local ∧
    (load_checkpoint t (save_checkpoint s).1 true).2 = s.iter := by
  simp [save_checkpoint, load_checkpoint]

/-- C4: `load_checkpoint` with `optim = False` leaves the live optimizer
states unchanged, restores only the model weights, still returns the saved
iteration, and never reads the optimizer entries of the checkpoint. -/
theorem load_checkpoint_no_optim_frame (s : Solver) (c : Checkpoint)
    (x y z : StateDict) :
    (load_checkpoint s c false).1.optimizer_backbone = s.optimizer_backbone ∧
    (load_checkpoint s c false).1.optimizer_top = s.optimizer_top ∧
    (load_checkpoint s c false).1.optimizer_local = s.optimizer_local ∧
    (load_checkpoint s c false).1.model.params = c.model ∧
    (load_checkpoint s c false).2 = c.iteration ∧
    load_checkpoint s
      { c with optimizer_backbone := x, optimizer_top := y
               optimizer_local := z } false = load_checkpoint s c false := by
  simp [load_checkpoint]

/-- C5: Each iteration's total loss is `lw_early * early + lw_local * local`
where both terms come from the same loss kernel applied to the same label on
the global and local features respectively; with weights `(1, 0)` the total
equals the early term exactly. -/
theorem trainStep_loss_weighted_sum {C : Collaborators} {cfg : Config}
    {s : Solver} {b : TrainBatch} {r : StepResult}
    (h : trainStep C cfg s b = .ok r) :
    r.early_loss = (C.criterion_early (C.forward s.model.params b.seq).1 b.label).1 ∧
    r.local_loss = (C.criterion_early (C.forward s.model.params b.seq).2 b.label).1 ∧
    r.loss = r.lw_early * r.early_loss + r.lw_local * r.local_loss ∧
    (r.lw_early = 1 → r.lw_local = 0 → r.loss = r.early_loss) := by
  obtain ⟨_, _, _, _, _, h6, h7, h8, _⟩ := trainStep_ok_inv h
  refine ⟨h6, h7, h8, fun he hl => ?_⟩
  rw [h8, he, hl, one_mul, zero_mul, add_zero]

/-- Witness for C5 at the concrete step (whose weights are `(1, 0)`). -/
theorem trainStep_loss_weighted_sum_witness :
    trainStep Cex cfgEx sEx bEx = .ok rEx ∧
    (rEx.early_loss = (Cex.criterion_early (Cex.forward sEx.model.params bEx.seq).1 bEx.label).1 ∧
     rEx.local_loss = (Cex.criterion_early (Cex.forward sEx.model.params bEx.seq).2 bEx.label).1 ∧
     rEx.loss = rEx.lw_early * rEx.early_loss + rEx.lw_local * rEx.local_loss ∧
     (rEx.lw_early = 1 → rEx.lw_local = 0 → rEx.loss = rEx.early_loss)) :=
  ⟨by rfl, @trainStep_loss_weighted_sum Cex cfgEx sEx bEx rEx (by rfl)⟩

/-- A concrete initial model state. -/
def mEx : ModelState := { params := [5], training := false }

/-- A concrete configuration with a small budget. -/
def cfg7 : Config :=
  { optimizer := "Adam", log_interval := 2, test_interval := 2
    num_iter := 3, target_acc := "local", test_before_train := true }

/-- A concrete configuration with an unknown optimizer kind. -/
def cfg9 : Config := { cfgEx with optimizer := "RMSprop" }

/-- C6: over a complete run of iterations `1 .. num_iter`, the Evaluator is
invoked exactly at those iterations whose post-increment counter value is a
multiple of `test_interval`, and at no others. -/
theorem train_evaluator_exactly_at_test_interval
    {C : Collaborators} {cfg : Config} {stream : Nat → TrainBatch}
    (model0 : ModelState) (ob0 ot0 ol0 : StateDict) (fuel : Nat)
    (htd : ∀ b ∈ C.testData, b.label.length = 1)
    (htarget : cfg.target_acc = "full" ∨ cfg.target_acc = "local")
    (hopt : cfg.optimizer = "SGD" ∨ cfg.optimizer = "Adam")
    ( _hti : 0 < cfg.test_interval)
    (hnum : 0 < cfg.num_iter) (hfuel : cfg.num_iter ≤ fuel) :
    ∃ s' recs,
      train C cfg stream model0 ob0 ot0 ol0 fuel = .ok (some (s', recs)) ∧
      recs.map IterLog.iterNo = List.range' 1 cfg.num_iter ∧
      ∀ rec ∈ recs, (rec.events.filter Event.isTest).length =
        (if rec.iterNo % cfg.test_interval = 0 then 1 else 0) := by
  obtain ⟨s', recs, h1, _, h3, _, h5, _⟩ :=
    train_run model0 ob0 ot0 ol0 fuel htd htarget hopt hnum hfuel
  exact ⟨s', recs, h1, h3, h5⟩

/-- Witness for C6: `test_interval = 5`, iterations `1 .. 10`. -/
theorem train_evaluator_exactly_at_test_interval_witness :
    (∀ b ∈ Cex.testData, b.label.length = 1) ∧
    (cfgEx.target_acc = "full" ∨ cfgEx.target_acc = "local") ∧
    (cfgEx.optimizer = "SGD" ∨ cfgEx.optimizer = "Adam") ∧
    0 < cfgEx.test_interval ∧ 0 < cfgEx.num_iter ∧ cfgEx.num_iter ≤ 10 ∧
    (∃ s' recs,
      train Cex cfgEx streamEx mEx [1] [2] [3] 10 = .ok (some (s', recs)) ∧
      recs.map IterLog.iterNo = List.range' 1 cfgEx.num_iter ∧
      ∀ rec ∈ recs, (rec.events.filter Event.isTest).length =
        (if rec.iterNo % cfgEx.test_interval = 0 then 1 else 0)) :=
  ⟨by decide, by decide, by decide, by decide, by decide, by decide,
   train_evaluator_exactly_at_test_interval mEx [1] [2] [3] 10
     (by decide) (by decide) (by decide) (by decide) (by decide) (by decide)⟩

/-- C7: for every budget `num_iter ≥ 1` and an inexhaustible stream, the
loop terminates exactly when the counter reaches `num_iter`, after exactly
`num_iter` iterations, the last of which emits the final summary with the
best score and best iteration. -/
theorem train_terminates_at_num_iter
    {C : Collaborators} {cfg : Config} {stream : Nat → TrainBatch}
    (model0 : ModelState) (ob0 ot0 ol0 : StateDict) (fuel : Nat)
    (htd : ∀ b ∈ C.testData, b.label.length = 1)
    (htarget : cfg.target_acc = "full" ∨ cfg.target_acc = "local")
    (hopt : cfg.optimizer = "SGD" ∨ cfg.optimizer = "Adam")
    ( _hti : 0 < cfg.test_interval)
    (hnum : 1 ≤ cfg.num_iter) (hfuel : cfg.num_iter ≤ fuel) :
    ∃ s' recs,
      train C cfg stream model0 ob0 ot0 ol0 fuel = .ok (some (s', recs)) ∧
      s'.iter = cfg.num_iter ∧
      recs.length = cfg.num_iter ∧
      recs.map IterLog.iterNo = List.range' 1 cfg.num_iter ∧
      ∃ rec ∈ recs, rec.iterNo = cfg.num_iter ∧
        Event.summary s'.best_acc s'.best_iter ∈ rec.events := by
  obtain ⟨s', recs, h1, h2, h3, _, _, h6⟩ :=
    train_run model0 ob0 ot0 ol0 fuel htd htarget hopt hnum hfuel
  refine ⟨s', recs, h1, h2, ?_, h3, h6⟩
  have hlen := congrArg List.length h3
  simpa using hlen

/-- Witness for C7: budget 3, fuel 3, test-before-train enabled. -/
theorem train_terminates_at_num_iter_witness :
    (∀ b ∈ Cex.testData, b.label.length = 1) ∧
    (cfg7.target_acc = "full" ∨ cfg7.target_acc = "local") ∧
    (cfg7.optimizer = "SGD" ∨ cfg7.optimizer = "Adam") ∧
    0 < cfg7.test_interval ∧ 1 ≤ cfg7.num_iter ∧ cfg7.num_iter ≤ 3 ∧
    (∃ s' recs,
      train Cex cfg7 streamEx mEx [1] [2] [3] 3 = .ok (some (s', recs)) ∧
      s'.iter = cfg7.num_iter ∧
      recs.length = cfg7.num_iter ∧
      recs.map IterLog.iterNo = List.range' 1 cfg7.num_iter ∧
      ∃ rec ∈ recs, rec.iterNo = cfg7.num_iter ∧
        Event.summary s'.best_acc s'.best_iter ∈ rec.events) :=
  ⟨by decide, by decide, by decide, by decide, by decide, by decide,
   train_terminates_at_num_iter mEx [1] [2] [3] 3
     (by decide) (by decide) (by decide) (by decide) (by decide) (by decide)⟩

/-- C8: a successful evaluation pass placed the model in inference mode,
iterated the held-out stream exactly once (one record per batch), and left
the model parameters (and all optimizer states and the counter) unchanged. -/
theorem testPass_frame_and_single_pass {C : Collaborators} {cfg : Config}
    {s s' : Solver} {a : List Rat} (h : testPass C cfg s = .ok (s', a)) :
    s'.model.params = s.model.params ∧
    s'.model.training = false ∧
    s'.iter = s.iter ∧
    s'.optimizer_backbone = s.optimizer_backbone ∧
    s'.optimizer_top = s.optimizer_top ∧
    s'.optimizer_local = s.optimizer_local ∧
    ∃ r, collectRecords C s.model.params C.testData = .ok r ∧
      r.full_feat_list.length = C.testData.length ∧
      r.local_feat_list.length = C.testData.length ∧
      r.label_list.length = C.testData.length := by
  have hs := testPass_ok_shape h
  subst hs
  refine ⟨rfl, rfl, rfl, rfl, rfl, rfl, ?_⟩
  cases hc : collectRecords C s.model.params C.testData with
  | error e =>
      exfalso
      simp only [testPass] at h
      rw [hc] at h
      simp at h
  | ok r =>
      obtain ⟨l1, l2, l3⟩ := collectRecords_ok_lengths hc
      exact ⟨r, rfl, l1, l2, l3⟩

/-- Witness for C8 at the concrete evaluation pass. -/
theorem testPass_frame_and_single_pass_witness :
    testPass Cex cfgEx sEx = .ok (tpEx.1, tpEx.2) ∧
    (tpEx.1.model.params = sEx.model.params ∧
     tpEx.1.model.training = false ∧
     tpEx.1.iter = sEx.iter ∧
     tpEx.1.optimizer_backbone = sEx.optimizer_backbone ∧
     tpEx.1.optimizer_top = sEx.optimizer_top ∧
     tpEx.1.optimizer_local = sEx.optimizer_local ∧
     ∃ r, collectRecords Cex sEx.model.params Cex.testData = .ok r ∧
       r.full_feat_list.length = Cex.testData.length ∧
       r.local_feat_list.length = Cex.testData.length ∧
       r.label_list.length = Cex.testData.length) :=
  ⟨by rfl, @testPass_frame_and_single_pass Cex cfgEx sEx tpEx.1 tpEx.2 (by rfl)⟩

/-- C9: any optimizer kind other than `'SGD'` or `'Adam'` makes optimizer
construction raise, and this aborts `train` during setup, before any
training iteration runs. -/
theorem build_optimizer_unknown_kind_fails_fast
    (C : Collaborators) (cfg : Config) (stream : Nat → TrainBatch)
    (model0 : ModelState) (ob0 ot0 ol0 : StateDict) (fuel : Nat)
    (h1 : cfg.optimizer ≠ "SGD") (h2 : cfg.optimizer ≠ "Adam") :
    build_optimizer cfg = .error "ValueError" ∧
    train C cfg stream model0 ob0 ot0 ol0 fuel = .error "ValueError" := by
  have hb : build_optimizer cfg = .error "ValueError" := by
    simp [build_optimizer, h1, h2]
  refine ⟨hb, ?_⟩
  simp only [train, hb]

/-- Witness for C9 with optimizer kind `'RMSprop'`. -/
theorem build_optimizer_unknown_kind_fails_fast_witness :
    cfg9.optimizer ≠ "SGD" ∧ cfg9.optimizer ≠ "Adam" ∧
    (build_optimizer cfg9 = .error "ValueError" ∧
     train Cex cfg9 streamEx mEx [1] [2] [3] 10 = .error "ValueError") :=
  ⟨by decide, by decide,
   build_optimizer_unknown_kind_fails_fast Cex cfg9 streamEx mEx [1] [2] [3] 10
     (by decide) (by decide)⟩

/-- C10: `_test` requires every test batch to carry a one-element label
tensor; any batch whose label tensor has more than one element makes the
evaluation pass abort with the `item()` error. -/
theorem testPass_errors_on_multisample_batch {C : Collaborators}
    {cfg : Config} (s : Solver) (h : ∃ b ∈ C.testData, 1 < b.label.length) :
    testPass C cfg s =
      .error "only one element tensors can be converted to Python scalars" := by
  have hne : ∃ b ∈ C.testData, b.label.length ≠ 1 := by
    obtain ⟨b, hb, hl⟩ := h
    exact ⟨b, hb, by omega⟩
  have hc := @collectRecords_err C s.model.params C.testData hne
  simp only [testPass, hc]

/-- Witness for C10 with a two-sample test batch. -/
theorem testPass_errors_on_multisample_batch_witness :
    (∃ b ∈ CexBad.testData, 1 < b.label.length) ∧
    testPass CexBad cfgEx sEx =
      .error "only one element tensors can be converted to Python scalars" :=
  ⟨by decide, testPass_errors_on_multisample_batch sEx (by decide)⟩
